import Mathlib

/-!
Shallow embedding of the StuKon teaching notebooks (tensor primer,
data-driven regression, physics-informed regression, parameterized PINN)
and verification of the specification's claims about them.

Layout: all definitions first, then the theorems.
-/

namespace StuKon

/-- Gravitational constant, `g = 9.81` in every notebook. -/
def g : ℝ := 9.81

/-- Initial height, `H = 50.0` in every notebook. -/
def H : ℝ := 50.0

/-- Semantics of `torch.linspace(a, b, steps)`: the `k`-th of `steps`
equidistant points from `a` to `b` inclusive. -/
noncomputable def linspace (a b : ℝ) (steps : ℕ) (k : ℕ) : ℝ :=
  a + k * (b - a) / ((steps : ℝ) - 1)

/-- The specification's closed-form function
`u(t; D) = (1/D)(ln((1+e^(-2*sqrt(D*g)*t))/2) - sqrt(D*g)*t) + H`,
written from the spec's words (this is the spec side of the refinement
claim comparing it against the code's `real_out`). -/
noncomputable def u_spec_formula (t D : ℝ) : ℝ :=
  (1 / D) * (Real.log ((1 + Real.exp (-2 * Real.sqrt (D * g) * t)) / 2)
    - Real.sqrt (D * g) * t) + H

/-- Semantics of `torch.nn.MSELoss()` (default mean reduction) applied to two
flat tensors of `n` entries. -/
noncomputable def mse {n : ℕ} (a b : Fin n → ℝ) : ℝ :=
  (∑ i, (a i - b i) ^ 2) / n

/-- Semantics of `torch.max(T)` on a tensor viewed as a nonempty finite family
of entries: the greatest entry. -/
noncomputable def torch_max {ι : Type} [Fintype ι] [Nonempty ι] (f : ι → ℝ) : ℝ :=
  Finset.univ.sup' Finset.univ_nonempty f

/-- One building block of a `torch.nn.Sequential` model: a fully connected
`Linear(din, dout)` layer or a `Tanh()` activation. -/
inductive Layer where
  | linear (din dout : ℕ)
  | tanh
deriving DecidableEq

/-- The (input, output) dimensions of the `Linear` layers of a model, in order. -/
def linearDims : List Layer → List (ℕ × ℕ)
  | [] => []
  | Layer.linear a b :: rest => (a, b) :: linearDims rest
  | Layer.tanh :: rest => linearDims rest

/-- The input dimension of a model: the input size of its first `Linear` layer. -/
def inputDim (m : List Layer) : Option ℕ :=
  (linearDims m).head?.map Prod.fst

/-- The output dimension of a model: the output size of its last `Linear` layer. -/
def outputDim (m : List Layer) : Option ℕ :=
  (linearDims m).getLast?.map Prod.snd

/-- The widths of the hidden layers: output sizes of all non-final `Linear` layers. -/
def hiddenWidths (m : List Layer) : List ℕ :=
  ((linearDims m).dropLast).map Prod.snd

/-- Whether the model ends with a `Linear` layer, i.e. applies no nonlinearity
to its output. -/
def endsLinear (m : List Layer) : Bool :=
  match m.getLast? with
  | some (Layer.linear _ _) => true
  | _ => false

/-- The architecture pattern `Linear(din, w) → Tanh → Linear(w, w) → Tanh →
Linear(w, dout)`: exactly two hidden layers of width `w` with a Tanh between
them and a linear output. -/
def twoHiddenTanh (din w dout : ℕ) : List Layer :=
  [Layer.linear din w, Layer.tanh, Layer.linear w w, Layer.tanh,
   Layer.linear w dout]

/-- A rank-3 tensor: a shape and an entry function (entries at out-of-range
positions are never exposed; `Tensor3.index` guards them). -/
structure Tensor3 where
  shape : ℕ × ℕ × ℕ
  entry : ℕ → ℕ → ℕ → ℝ

/-- Semantics of integer indexing `T[i, j, k]` on a rank-3 tensor: the entry
when every index is strictly below its dimension's size (counted from 0), and
a failure (PyTorch's IndexError, modelled as `none`) otherwise. -/
def Tensor3.index (T : Tensor3) (i j k : ℕ) : Option ℝ :=
  if i < T.shape.1 ∧ j < T.shape.2.1 ∧ k < T.shape.2.2 then
    some (T.entry i j k)
  else
    none

/-- A `for i in range(·)` loop body applied from iteration index `i` on, for a
given number of remaining iterations, threading a state and counting the
iterations actually executed. -/
def loop_from {S : Type} (step : ℕ → S → S) (i : ℕ) : ℕ → S → S × ℕ
  | 0, s => (s, 0)
  | n + 1, s =>
    let r := loop_from step (i + 1) n (step i s)
    (r.1, r.2 + 1)

/-- Semantics of `for i in range(n): s = step(i, s)`: the final state and the
number of iterations executed. -/
def run_loop {S : Type} (step : ℕ → S → S) (n : ℕ) (s : S) : S × ℕ :=
  loop_from step 0 n s

/-- The model of what `torch.autograd.grad(f(t), t)[0][k]` computes for a
scalar-valued `f` of a rank-1 tensor `t`: the partial derivative of `f` in the
`k`-th coordinate at `t` (automatic differentiation computes exact
derivatives, per the spec's glossary). -/
noncomputable def grad_coord {n : ℕ} (f : (Fin n → ℝ) → ℝ) (t : Fin n → ℝ)
    (k : Fin n) : ℝ :=
  deriv (fun y => f (Function.update t k y)) (t k)

namespace AutogradToy

/-- The grid `t = torch.linspace(0, 10, 11)` of the toy differentiation cell. -/
noncomputable def t (k : Fin 11) : ℝ := linspace 0 10 11 k

/-- The summed square `u_sum = sum(t**2)` whose gradient the toy cell takes,
as a function of the grid tensor. -/
def u_sum (v : Fin 11 → ℝ) : ℝ := ∑ j, (v j) ^ 2

/-- `u_t = torch.autograd.grad(u_sum, t, create_graph=True)[0]`. -/
noncomputable def u_t (k : Fin 11) : ℝ := grad_coord u_sum t k

end AutogradToy

namespace PhysicsInformed

/-- Fixed damping parameter `D = 0.02` of the physics-informed notebook. -/
def D : ℝ := 0.02

/-- `t_min = 0.0`. -/
def t_min : ℝ := 0.0

/-- `t_max = 3.0`. -/
def t_max : ℝ := 3.0

/-- Number of time points, `N_t = 50`. -/
abbrev N_t : ℕ := 50

/-- `train_iterations = 5000`. -/
def train_iterations : ℕ := 5000

/-- The differentiable time grid `t = torch.linspace(t_min, t_max, N_t)`. -/
noncomputable def tgrid (k : Fin N_t) : ℝ := linspace t_min t_max N_t k

/-- The network of the fixed-parameter notebook:
`torch.nn.Sequential(Linear(1, 20), Tanh(), Linear(20, 20), Tanh(), Linear(20, 1))`. -/
def model : List Layer :=
  [Layer.linear 1 20, Layer.tanh, Layer.linear 20 20, Layer.tanh,
   Layer.linear 20 1]

/-- `sqrt_term = math.sqrt(D * g)` from the accuracy-check cell. -/
noncomputable def sqrt_term : ℝ := Real.sqrt (D * g)

/-- The code's reference solution from the accuracy-check cell:
`real_out = H - 1/D * (torch.log((1 + torch.exp(-2*sqrt_term*t))/2.0) + sqrt_term*t)`. -/
noncomputable def real_out (t : ℝ) : ℝ :=
  H - 1 / D * (Real.log ((1 + Real.exp (-2 * sqrt_term * t)) / 2)
    + sqrt_term * t)

/-- Modelled from the spec: the arguments of `loss_fn_ode` are TODO blanks in
the notebook; the cell's comment fixes the residual as the equation
`u_tt = D*(u_t)^2 - g` on the time grid. The network is abstracted as the real
function `f` it computes and its autograd time-derivatives as `deriv`. -/
noncomputable def loss_ode (f : ℝ → ℝ) : ℝ :=
  mse (fun k : Fin N_t => deriv (deriv f) (tgrid k))
      (fun k : Fin N_t => D * (deriv f (tgrid k)) ^ 2 - g)

/-- Modelled from the spec: the arguments of `loss_fn_initial_position` are
TODO blanks in the notebook; the cell's comment fixes the residual as the
initial condition `u(0) = H` at the anchor point `t_zero`. -/
noncomputable def loss_initial_position (f : ℝ → ℝ) : ℝ :=
  mse (fun _ : Fin 1 => f 0) (fun _ : Fin 1 => H)

/-- Modelled from the spec: the arguments of `loss_fn_initial_speed` are TODO
blanks in the notebook; the cell's comment fixes the residual as the initial
velocity `u_t(0) = 0` at the anchor point `t_zero`. -/
noncomputable def loss_initial_speed (f : ℝ → ℝ) : ℝ :=
  mse (fun _ : Fin 1 => deriv f 0) (fun _ : Fin 1 => 0)

/-- `total_loss = loss_ode + loss_initial_position + loss_initial_speed`,
exactly the source's summation line. -/
noncomputable def total_loss (f : ℝ → ℝ) : ℝ :=
  loss_ode f + loss_initial_position f + loss_initial_speed f

end PhysicsInformed

namespace DataDriven

/-- `t_min = 0.0`. -/
def t_min : ℝ := 0.0

/-- `t_max = 3.0`. -/
def t_max : ℝ := 3.0

/-- `D_min = 0.01`. -/
def D_min : ℝ := 0.01

/-- `D_max = 1.0`. -/
def D_max : ℝ := 1.0

/-- `N_D_train = 500`. -/
abbrev N_D_train : ℕ := 500

/-- `N_t_train = 50`. -/
abbrev N_t_train : ℕ := 50

/-- `N_D_test = 25`. -/
abbrev N_D_test : ℕ := 25

/-- `N_t_test = 50`. -/
abbrev N_t_test : ℕ := 50

/-- `train_iterations = 5000`. -/
def train_iterations : ℕ := 5000

/-- Modelled from the spec: parameter values are drawn uniformly at random via
`torch.rand`; the draw vector `d` (each `d i` in `[0, 1)`) is made explicit,
and `D_i = D_min + (D_max - D_min) * d i` scales it to `[D_min, D_max]`. -/
noncomputable def D_sample (d : ℕ → ℝ) (i : ℕ) : ℝ :=
  D_min + (D_max - D_min) * d i

/-- The equidistant time grid `torch.linspace(t_min, t_max, N_t_train)`,
shared by every parameter draw. -/
noncomputable def tgrid (k : ℕ) : ℝ := linspace t_min t_max N_t_train k

/-- Modelled from the spec: the dataset-construction cell is a TODO blank in
the notebook; per the contract, `input_training` has shape
`(N_D_train, N_t_train, 2)` and `input_training[i, k] = (D_i, t_k)`. -/
noncomputable def input_training (d : ℕ → ℝ) : Tensor3 :=
  ⟨(N_D_train, N_t_train, 2),
   fun i k j => if j = 0 then D_sample d i else tgrid k⟩

/-- Modelled from the spec: the dataset-construction cell is a TODO blank in
the notebook; per the contract, `output_training` has shape
`(N_D_train, N_t_train, 1)` and `output_training[i, k] = u(t_k; D_i)`. -/
noncomputable def output_training (d : ℕ → ℝ) : Tensor3 :=
  ⟨(N_D_train, N_t_train, 1),
   fun i k _ => u_spec_formula (tgrid k) (D_sample d i)⟩

/-- Modelled from the spec: the model cell is a TODO blank in the notebook; the
notebook instructs 2 input neurons for `(t, D)`, 1 output neuron, two hidden
layers of size 20 and Tanh activation in between. -/
def model : List Layer := twoHiddenTanh 2 20 1

/-- `error = torch.abs(model_out - output_testing)` from the accuracy cell;
model output and test targets are abstracted as families over the test grid. -/
noncomputable def error (m o : Fin N_D_test → Fin N_t_test → ℝ)
    (i : Fin N_D_test) (k : Fin N_t_test) : ℝ :=
  |m i k - o i k|

/-- The scalar the accuracy cell prints:
`torch.max(error) / torch.max(output_testing)`. -/
noncomputable def relative_error (m o : Fin N_D_test → Fin N_t_test → ℝ) : ℝ :=
  torch_max (fun p : Fin N_D_test × Fin N_t_test => error m o p.1 p.2) /
    torch_max (fun p : Fin N_D_test × Fin N_t_test => o p.1 p.2)

/-- The per-point relative-error aggregate that the accuracy cell does NOT
compute: the maximum over test points of `|m - o| / o`. -/
noncomputable def pointwise_relative_error
    (m o : Fin N_D_test → Fin N_t_test → ℝ) : ℝ :=
  torch_max (fun p : Fin N_D_test × Fin N_t_test =>
    |m p.1 p.2 - o p.1 p.2| / o p.1 p.2)

/-- A concrete test-target family distinguishing the reported scalar from a
per-point relative error: value `1` at the corner point, `2` elsewhere. -/
noncomputable def o0 : Fin N_D_test → Fin N_t_test → ℝ :=
  fun i k => if i = 0 ∧ k = 0 then 1 else 2

/-- A concrete model-output family for the same purpose: `3/2` at the corner
point (absolute error `1/2` there), exact elsewhere. -/
noncomputable def m0 : Fin N_D_test → Fin N_t_test → ℝ :=
  fun i k => if i = 0 ∧ k = 0 then 3 / 2 else 2

end DataDriven

namespace ParamPINN

/-- `max_steps = 8000` passed to the Lightning trainer. -/
def max_steps : ℕ := 8000

/-- The PlotSampler's `n_points = 100`. -/
abbrev n_points : ℕ := 100

/-- `k_tensor = torch.linspace(0, 2.0, 50)`. -/
noncomputable def k_tensor (i : ℕ) : ℝ := linspace 0 2 50 i

/-- The evaluation loop body
`error_tensor[i] = torch.max(torch.abs(out - torch.exp(k_tensor[i] * x)))`
where `out = model(inp_data)` at the 100 plot points and the fixed parameter
`k_tensor[i]`; the trained model is abstracted as the function `m` and the
PlotSampler's points as the family `xs`. -/
noncomputable def error_tensor (m : ℝ → ℝ → ℝ) (xs : Fin n_points → ℝ)
    (i : ℕ) : ℝ :=
  torch_max (fun j : Fin n_points =>
    |m (xs j) (k_tensor i) - Real.exp (k_tensor i * xs j)|)

end ParamPINN

namespace Workshop

/-- `test_tensor = torch.zeros((3, 2, 2))` from the tensor primer. -/
def test_tensor : Tensor3 := ⟨(3, 2, 2), fun _ _ _ => 0⟩

end Workshop

end StuKon

namespace StuKon

/-- The square root appearing in the reference solution is positive. -/
theorem sqrt_term_pos : 0 < PhysicsInformed.sqrt_term := by
  unfold PhysicsInformed.sqrt_term PhysicsInformed.D g
  exact Real.sqrt_pos.mpr (by norm_num)

/-- For `s > 0` and `t > 0`, the logarithm `ln((1+e^(-2*s*t))/2)` is negative. -/
theorem log_term_neg {s t : ℝ} (hs : 0 < s) (ht : 0 < t) :
    Real.log ((1 + Real.exp (-2 * s * t)) / 2) < 0 := by
  apply Real.log_neg
  · positivity
  · have h1 : Real.exp (-2 * s * t) < 1 := by
      rw [Real.exp_lt_one_iff]
      nlinarith
    linarith

/-- The code's reference expression differs from the spec's closed-form formula
at `D = 0.02` by `-(2/D) * ln((1+e^(-2*sqrt(D*g)*t))/2)`. -/
theorem real_out_sub_spec (t : ℝ) :
    PhysicsInformed.real_out t - u_spec_formula t PhysicsInformed.D =
    -(2 / PhysicsInformed.D) *
      Real.log ((1 + Real.exp (-2 * Real.sqrt (PhysicsInformed.D * g) * t)) / 2) := by
  unfold PhysicsInformed.real_out u_spec_formula PhysicsInformed.sqrt_term
  ring

end StuKon

/-- C1: counterexample. At `t = 3` (inside `[0, 3]`, with `D = 0.02`), the code's
reference expression `real_out` does NOT equal the spec's closed-form function
`u(t; D)`: the two differ by `-(2/D) * ln((1+e^(-2*sqrt(D*g)*t))/2) ≠ 0`. -/
theorem c1_counterexample :
    ((0:ℝ) ≤ 3 ∧ (3:ℝ) ≤ 3) ∧
    StuKon.PhysicsInformed.real_out 3 ≠
      StuKon.u_spec_formula 3 StuKon.PhysicsInformed.D := by
  refine ⟨⟨by norm_num, le_refl 3⟩, ?_⟩
  intro h
  have hdiff := StuKon.real_out_sub_spec 3
  rw [h, sub_self] at hdiff
  have hs := StuKon.sqrt_term_pos
  unfold StuKon.PhysicsInformed.sqrt_term at hs
  have hL := StuKon.log_term_neg hs (show (0:ℝ) < 3 by norm_num)
  have hD : 0 < 2 / StuKon.PhysicsInformed.D := by
    norm_num [StuKon.PhysicsInformed.D]
  nlinarith [hL, hD]

/-- C1 (amended): the code's reference expression and the spec's closed-form
formula agree at `t = 0` only; for every `t` in `(0, 3]` they differ (the code's
`real_out = H - (1/D)(ln((1+e^(-2*sqrt(D*g)*t))/2) + sqrt(D*g)*t)` flips the
sign of the logarithm term relative to the spec's formula). -/
theorem c1_amended :
    StuKon.PhysicsInformed.real_out 0 =
      StuKon.u_spec_formula 0 StuKon.PhysicsInformed.D ∧
    ∀ t : ℝ, 0 < t → t ≤ 3 →
      StuKon.PhysicsInformed.real_out t ≠
        StuKon.u_spec_formula t StuKon.PhysicsInformed.D := by
  constructor
  · unfold StuKon.PhysicsInformed.real_out StuKon.u_spec_formula
      StuKon.PhysicsInformed.sqrt_term
    simp [Real.exp_zero]
  · intro t ht _ h
    have hdiff := StuKon.real_out_sub_spec t
    rw [h, sub_self] at hdiff
    have hs := StuKon.sqrt_term_pos
    unfold StuKon.PhysicsInformed.sqrt_term at hs
    have hL := StuKon.log_term_neg hs ht
    have hD : 0 < 2 / StuKon.PhysicsInformed.D := by
      norm_num [StuKon.PhysicsInformed.D]
    nlinarith [hL, hD]

/-- Witness for the amended C1 at the concrete times `t = 0` and `t = 1`. -/
theorem c1_amended_witness :
    StuKon.PhysicsInformed.real_out 0 =
      StuKon.u_spec_formula 0 StuKon.PhysicsInformed.D ∧
    StuKon.PhysicsInformed.real_out 1 ≠
      StuKon.u_spec_formula 1 StuKon.PhysicsInformed.D :=
  ⟨c1_amended.1, c1_amended.2 1 (by norm_num) (by norm_num)⟩

/-- C6: for every `D` in `[0.01, 1.0]`, the spec's closed-form function satisfies
`u(0; D) = H` exactly, and the code's reference expression `real_out` at `t = 0`
also equals `H`. -/
theorem c6_initial_height (D : ℝ) (h1 : 0.01 ≤ D) (h2 : D ≤ 1) :
    StuKon.u_spec_formula 0 D = StuKon.H ∧
    StuKon.PhysicsInformed.real_out 0 = StuKon.H := by
  constructor
  · unfold StuKon.u_spec_formula
    simp [Real.exp_zero]
  · unfold StuKon.PhysicsInformed.real_out
    simp [Real.exp_zero]

/-- Witness for C6 at the concrete parameter `D = 0.02`. -/
theorem c6_initial_height_witness :
    (0.01 ≤ (0.02 : ℝ) ∧ (0.02 : ℝ) ≤ 1) ∧
    (StuKon.u_spec_formula 0 0.02 = StuKon.H ∧
     StuKon.PhysicsInformed.real_out 0 = StuKon.H) :=
  ⟨⟨by norm_num, by norm_num⟩, c6_initial_height 0.02 (by norm_num) (by norm_num)⟩

namespace StuKon

/-- The loop counter: a `range`-style loop always executes exactly the
requested number of iterations, whatever the body does. -/
theorem loop_from_count {S : Type} (step : ℕ → S → S) (n : ℕ) :
    ∀ (i : ℕ) (s : S), (loop_from step i n s).2 = n := by
  induction n with
  | zero => intro i s; rfl
  | succ n ih => intro i s; simp [loop_from, ih]

end StuKon

/-- C9: every training loop in the notebooks (`for t in range(train_iterations)`
with `train_iterations = 5000` in the data-driven and physics-informed
notebooks, and the trainer's `max_steps = 8000` in the parameterized notebook)
executes exactly its configured number of iterations, for EVERY loop body
`step` and start state `s` — in particular independently of any loss value the
body computes, so termination never involves a convergence criterion. -/
theorem c9_fixed_iteration_count {S : Type} (step : ℕ → S → S) (s : S) :
    (StuKon.run_loop step StuKon.DataDriven.train_iterations s).2 = 5000 ∧
    (StuKon.run_loop step StuKon.PhysicsInformed.train_iterations s).2 = 5000 ∧
    (StuKon.run_loop step StuKon.ParamPINN.max_steps s).2 = 8000 ∧
    ∀ n : ℕ, (StuKon.run_loop step n s).2 = n := by
  refine ⟨?_, ?_, ?_, fun n => ?_⟩ <;>
    apply StuKon.loop_from_count

/-- C10: indexing the `(3, 2, 2)`-shaped `test_tensor` with integer indices
`(i, j, k)` returns a value exactly when `i < 3`, `j < 2` and `k < 2` (counted
from 0), and in particular `test_tensor[3, 0, 0]` fails with an IndexError
(modelled as `none`) instead of returning a value. -/
theorem c10_index_safety :
    (∀ i j k : ℕ, (StuKon.Workshop.test_tensor.index i j k).isSome ↔
      (i < 3 ∧ j < 2 ∧ k < 2)) ∧
    StuKon.Workshop.test_tensor.index 3 0 0 = none := by
  constructor
  · intro i j k
    unfold StuKon.Tensor3.index StuKon.Workshop.test_tensor
    split_ifs with hc
    · simpa using hc
    · simpa using hc
  · rfl

/-- C4: counterexample. The physics-informed notebook's regressor
`Sequential(Linear(1, 20), Tanh, Linear(20, 20), Tanh, Linear(20, 1))` maps a
1-dimensional input (time only, the parameter being fixed at `D = 0.02`), not
a 2-dimensional one, so not every feed-forward regressor in the notebooks has
a 2-dimensional input. -/
theorem c4_counterexample :
    StuKon.inputDim StuKon.PhysicsInformed.model = some 1 ∧
    StuKon.inputDim StuKon.PhysicsInformed.model ≠ some 2 := by
  decide

/-- C4 (amended): the data-driven regressor maps a 2-dimensional input
`(t, D)` and the fixed-parameter physics-informed regressor maps a
1-dimensional input (time only); each maps to a 1-dimensional output through
exactly two hidden layers of fixed width 20 with a Tanh nonlinearity between
them and no nonlinearity on the output layer. -/
theorem c4_amended_architecture :
    StuKon.DataDriven.model = StuKon.twoHiddenTanh 2 20 1 ∧
    StuKon.PhysicsInformed.model = StuKon.twoHiddenTanh 1 20 1 ∧
    StuKon.inputDim StuKon.DataDriven.model = some 2 ∧
    StuKon.inputDim StuKon.PhysicsInformed.model = some 1 ∧
    StuKon.outputDim StuKon.DataDriven.model = some 1 ∧
    StuKon.outputDim StuKon.PhysicsInformed.model = some 1 ∧
    StuKon.hiddenWidths StuKon.DataDriven.model = [20, 20] ∧
    StuKon.hiddenWidths StuKon.PhysicsInformed.model = [20, 20] ∧
    StuKon.endsLinear StuKon.DataDriven.model = true ∧
    StuKon.endsLinear StuKon.PhysicsInformed.model = true := by
  decide

/-- C2: for every draw vector `d` of `torch.rand` values (each `d i` in
`[0, 1)`), the constructed dataset satisfies: `input_training` has shape
`(500, 50, 2)` and `output_training` has shape `(500, 50, 1)`; every input row
`(i, k)` is the pair `(D_i, t_k)` with `D_i = D_min + (D_max - D_min) * d i`
lying in `[0.01, 1.0]`; the time slice `input_training[i, :, 1]` is one and
the same equidistant grid of 50 points over `[0, 3]` for every `i`; and
`output_training[i, k]` is the closed-form solution `u(t_k; D_i)`. -/
theorem c2_dataset_construction (d : ℕ → ℝ)
    (hd : ∀ i : ℕ, 0 ≤ d i ∧ d i < 1) :
    (StuKon.DataDriven.input_training d).shape = (500, 50, 2) ∧
    (StuKon.DataDriven.output_training d).shape = (500, 50, 1) ∧
    (∀ i k : ℕ,
      (StuKon.DataDriven.input_training d).entry i k 0 =
        StuKon.DataDriven.D_sample d i ∧
      (StuKon.DataDriven.input_training d).entry i k 1 =
        StuKon.DataDriven.tgrid k) ∧
    (∀ i : ℕ, 0.01 ≤ StuKon.DataDriven.D_sample d i ∧
      StuKon.DataDriven.D_sample d i ≤ 1) ∧
    (∀ i i' k : ℕ,
      (StuKon.DataDriven.input_training d).entry i k 1 =
        (StuKon.DataDriven.input_training d).entry i' k 1) ∧
    (StuKon.DataDriven.tgrid 0 = 0 ∧ StuKon.DataDriven.tgrid 49 = 3 ∧
      ∀ k : ℕ, StuKon.DataDriven.tgrid (k + 1) - StuKon.DataDriven.tgrid k =
        3 / 49) ∧
    (∀ i k : ℕ, (StuKon.DataDriven.output_training d).entry i k 0 =
      StuKon.u_spec_formula (StuKon.DataDriven.tgrid k)
        (StuKon.DataDriven.D_sample d i)) := by
  refine ⟨rfl, rfl, ?_, ?_, ?_, ⟨?_, ?_, ?_⟩, ?_⟩
  · intro i k
    constructor
    · simp [StuKon.DataDriven.input_training]
    · simp [StuKon.DataDriven.input_training]
  · intro i
    obtain ⟨h0, h1⟩ := hd i
    unfold StuKon.DataDriven.D_sample StuKon.DataDriven.D_min
      StuKon.DataDriven.D_max
    constructor <;> nlinarith
  · intro i i' k
    simp [StuKon.DataDriven.input_training]
  · norm_num [StuKon.DataDriven.tgrid, StuKon.linspace,
      StuKon.DataDriven.t_min]
  · norm_num [StuKon.DataDriven.tgrid, StuKon.linspace,
      StuKon.DataDriven.t_min, StuKon.DataDriven.t_max]
  · intro k
    unfold StuKon.DataDriven.tgrid StuKon.linspace
      StuKon.DataDriven.t_min StuKon.DataDriven.t_max
    push_cast
    ring_nf
  · intro i k
    simp [StuKon.DataDriven.output_training]

/-- Witness for C2 at the constant draw vector `d = 1/2` and the concrete
position `(i, k) = (0, 1)`. -/
theorem c2_dataset_construction_witness :
    (StuKon.DataDriven.input_training (fun _ => 1 / 2)).shape = (500, 50, 2) ∧
    (StuKon.DataDriven.output_training (fun _ => 1 / 2)).shape = (500, 50, 1) ∧
    (StuKon.DataDriven.input_training (fun _ => 1 / 2)).entry 0 1 1 =
      StuKon.DataDriven.tgrid 1 :=
  have h := c2_dataset_construction (fun _ => 1 / 2) (fun i => by norm_num)
  ⟨h.1, h.2.1, (h.2.2.1 0 1).2⟩

/-- C3: in the physics-informed training loop (network abstracted as the real
function `f` it computes, with `D = 0.02` fixed), the total loss of every
iteration is the unweighted sum of exactly three mean-squared-error
reductions: the ODE residual `u_tt` vs `D*(u_t)^2 - g` over the 50-point time
grid, the initial-position residual `u(0)` vs `H`, and the initial-velocity
residual `u_t(0)` vs `0`. -/
theorem c3_total_loss_decomposition (f : ℝ → ℝ) :
    StuKon.PhysicsInformed.total_loss f =
      (∑ k : Fin 50, (deriv (deriv f) (StuKon.PhysicsInformed.tgrid k) -
        (StuKon.PhysicsInformed.D *
          (deriv f (StuKon.PhysicsInformed.tgrid k)) ^ 2 - StuKon.g)) ^ 2) / 50
      + (f 0 - StuKon.H) ^ 2 + (deriv f 0 - 0) ^ 2 := by
  unfold StuKon.PhysicsInformed.total_loss StuKon.PhysicsInformed.loss_ode
    StuKon.PhysicsInformed.loss_initial_position
    StuKon.PhysicsInformed.loss_initial_speed StuKon.mse
  norm_num

namespace StuKon

/-- The autograd gradient of `sum(v**2)` in coordinate `k` is `2 * v k`:
replacing the `k`-th coordinate by a variable turns the sum into
`y^2 + constant`, whose derivative at `v k` is `2 * v k`. -/
theorem grad_coord_sum_sq {n : ℕ} (v : Fin n → ℝ) (k : Fin n) :
    grad_coord (fun w => ∑ j, (w j) ^ 2) v k = 2 * v k := by
  unfold grad_coord
  have hupd : ∀ y : ℝ, (∑ j, (Function.update v k y j) ^ 2)
      = y ^ 2 + ∑ j ∈ Finset.univ \ {k}, (v j) ^ 2 := by
    intro y
    have hpoint : ∀ j ∈ Finset.univ, (Function.update v k y j) ^ 2 =
        Function.update (fun i => (v i) ^ 2) k (y ^ 2) j := by
      intro j _
      exact Function.apply_update (fun _ x => x ^ 2) v k y j
    rw [Finset.sum_congr rfl hpoint]
    exact Finset.sum_update_of_mem (Finset.mem_univ k) (fun i => (v i) ^ 2)
      (y ^ 2)
  have hfun : (fun y : ℝ => ∑ j, (Function.update v k y j) ^ 2)
      = fun y : ℝ => y ^ 2 + ∑ j ∈ Finset.univ \ {k}, (v j) ^ 2 :=
    funext hupd
  rw [hfun]
  have hder : HasDerivAt
      (fun y : ℝ => y ^ 2 + ∑ j ∈ Finset.univ \ {k}, (v j) ^ 2)
      (2 * v k) (v k) := by
    have := (hasDerivAt_pow 2 (v k)).add_const
      (∑ j ∈ Finset.univ \ {k}, (v j) ^ 2)
    simpa using this
  exact hder.deriv

end StuKon

/-- C7: for `u = t^2` on the 11-point grid `torch.linspace(0, 10, 11)` (whose
`k`-th point is exactly the integer `k`), the automatic derivative
`torch.autograd.grad(sum(u), t)[0]` equals the analytical derivative `2t`
elementwise — the vector `(0, 2, 4, ..., 20)` — hence agrees with it within
the tolerance `1e-5`. -/
theorem c7_autograd_matches_analytic (k : Fin 11) :
    StuKon.AutogradToy.t k = (k : ℝ) ∧
    StuKon.AutogradToy.u_t k = 2 * (k : ℝ) ∧
    |StuKon.AutogradToy.u_t k - 2 * StuKon.AutogradToy.t k| ≤ 1e-5 := by
  have hgrid : StuKon.AutogradToy.t k = (k : ℝ) := by
    unfold StuKon.AutogradToy.t StuKon.linspace
    norm_num
  have hderiv : StuKon.AutogradToy.u_t k = 2 * StuKon.AutogradToy.t k := by
    unfold StuKon.AutogradToy.u_t StuKon.AutogradToy.u_sum
    exact StuKon.grad_coord_sum_sq StuKon.AutogradToy.t k
  refine ⟨hgrid, ?_, ?_⟩
  · rw [hderiv, hgrid]
  · rw [hderiv]
    norm_num

namespace StuKon

/-- `torch_max` is characterized as an upper bound attained at some entry. -/
theorem torch_max_eq_of_bound {ι : Type} [Fintype ι] [Nonempty ι]
    (f : ι → ℝ) (c : ℝ) (j : ι) (hub : ∀ p, f p ≤ c) (hat : f j = c) :
    torch_max f = c := by
  unfold torch_max
  refine le_antisymm (Finset.sup'_le _ _ fun p _ => hub p) ?_
  exact hat ▸ Finset.le_sup' f (Finset.mem_univ j)

end StuKon

/-- C5: for every abstracted trained model `m`, every family `xs` of the 100
plot points and every index `i`, the reported `error_tensor` value is exactly
the maximum over the plot points of the absolute difference between the model
output at `(x, k_i)` and the closed-form reference `e^(k_i * x)` (an upper
bound on every pointwise difference, attained at some plot point), where the
parameter values `k_i = k_tensor[i]` form the 50-point equidistant grid over
`[0, 2]` sampled independently of training. -/
theorem c5_error_tensor_is_max (m : ℝ → ℝ → ℝ) (xs : Fin 100 → ℝ) (i : ℕ) :
    (∀ j : Fin 100,
      |m (xs j) (StuKon.ParamPINN.k_tensor i) -
        Real.exp (StuKon.ParamPINN.k_tensor i * xs j)| ≤
      StuKon.ParamPINN.error_tensor m xs i) ∧
    (∃ j : Fin 100, StuKon.ParamPINN.error_tensor m xs i =
      |m (xs j) (StuKon.ParamPINN.k_tensor i) -
        Real.exp (StuKon.ParamPINN.k_tensor i * xs j)|) ∧
    (StuKon.ParamPINN.k_tensor 0 = 0 ∧ StuKon.ParamPINN.k_tensor 49 = 2 ∧
      ∀ i' : ℕ, StuKon.ParamPINN.k_tensor (i' + 1) -
        StuKon.ParamPINN.k_tensor i' = 2 / 49) := by
  refine ⟨?_, ?_, ?_, ?_, ?_⟩
  · intro j
    unfold StuKon.ParamPINN.error_tensor StuKon.torch_max
    exact Finset.le_sup'
      (fun j : Fin 100 => |m (xs j) (StuKon.ParamPINN.k_tensor i) -
        Real.exp (StuKon.ParamPINN.k_tensor i * xs j)|) (Finset.mem_univ j)
  · unfold StuKon.ParamPINN.error_tensor StuKon.torch_max
    obtain ⟨j, _, hj⟩ := Finset.exists_mem_eq_sup'
      (Finset.univ_nonempty (α := Fin 100))
      (fun j : Fin 100 => |m (xs j) (StuKon.ParamPINN.k_tensor i) -
        Real.exp (StuKon.ParamPINN.k_tensor i * xs j)|)
    exact ⟨j, hj⟩
  · norm_num [StuKon.ParamPINN.k_tensor, StuKon.linspace]
  · norm_num [StuKon.ParamPINN.k_tensor, StuKon.linspace]
  · intro i'
    unfold StuKon.ParamPINN.k_tensor StuKon.linspace
    push_cast
    ring_nf

namespace StuKon

/-- On the concrete families `m0, o0`, the maximal absolute error is `1/2`. -/
theorem max_abs_error_m0_o0 :
    torch_max (fun p : Fin 25 × Fin 50 =>
      DataDriven.error DataDriven.m0 DataDriven.o0 p.1 p.2) = 1 / 2 := by
  apply torch_max_eq_of_bound _ _ ((0 : Fin 25), (0 : Fin 50))
  · intro p
    unfold DataDriven.error DataDriven.m0 DataDriven.o0
    split_ifs with hp
    · rw [show (3:ℝ)/2 - 1 = 1/2 by norm_num,
        abs_of_nonneg (by norm_num : (0:ℝ) ≤ 1/2)]
    · simp
  · unfold DataDriven.error DataDriven.m0 DataDriven.o0
    norm_num

/-- On the concrete family `o0`, the maximal test target is `2`. -/
theorem max_target_o0 :
    torch_max (fun p : Fin 25 × Fin 50 => DataDriven.o0 p.1 p.2) = 2 := by
  apply torch_max_eq_of_bound _ _ ((1 : Fin 25), (0 : Fin 50))
  · intro p
    unfold DataDriven.o0
    split_ifs <;> norm_num
  · unfold DataDriven.o0
    rw [if_neg]
    intro hp
    exact absurd hp.1 (by decide)

/-- On the concrete families `m0, o0`, the maximal per-point relative error is
`1/2` (attained at the corner point where the target is `1`). -/
theorem max_pointwise_rel_m0_o0 :
    torch_max (fun p : Fin 25 × Fin 50 =>
      |DataDriven.m0 p.1 p.2 - DataDriven.o0 p.1 p.2| /
        DataDriven.o0 p.1 p.2) = 1 / 2 := by
  apply torch_max_eq_of_bound _ _ ((0 : Fin 25), (0 : Fin 50))
  · intro p
    unfold DataDriven.m0 DataDriven.o0
    split_ifs with hp
    · rw [show (3:ℝ)/2 - 1 = 1/2 by norm_num,
        abs_of_nonneg (by norm_num : (0:ℝ) ≤ 1/2)]
      norm_num
    · simp
  · unfold DataDriven.m0 DataDriven.o0
    norm_num

end StuKon

/-- C8: the data-driven accuracy check reports the single scalar
`max(|model_out - output_testing|) / max(output_testing)`: for all abstracted
model outputs `m` and test targets `o`, the reported value is the maximum
absolute error over all test points (an upper bound attained at some point)
divided by the global maximum of the test targets; and it is NOT a per-point
relative error — on the concrete families `m0, o0` the reported scalar (1/4)
differs from the maximal per-point relative error (1/2). -/
theorem c8_relative_error_is_global_ratio :
    (∀ m o : Fin 25 → Fin 50 → ℝ,
      (∀ i k, StuKon.DataDriven.error m o i k ≤
        StuKon.torch_max (fun p : Fin 25 × Fin 50 =>
          StuKon.DataDriven.error m o p.1 p.2)) ∧
      (∃ i k, StuKon.torch_max (fun p : Fin 25 × Fin 50 =>
          StuKon.DataDriven.error m o p.1 p.2) = |m i k - o i k|) ∧
      StuKon.DataDriven.relative_error m o =
        StuKon.torch_max (fun p : Fin 25 × Fin 50 =>
          StuKon.DataDriven.error m o p.1 p.2) /
        StuKon.torch_max (fun p : Fin 25 × Fin 50 => o p.1 p.2)) ∧
    StuKon.DataDriven.relative_error StuKon.DataDriven.m0 StuKon.DataDriven.o0 ≠
      StuKon.DataDriven.pointwise_relative_error
        StuKon.DataDriven.m0 StuKon.DataDriven.o0 := by
  constructor
  · intro m o
    refine ⟨?_, ?_, rfl⟩
    · intro i k
      unfold StuKon.torch_max
      exact Finset.le_sup'
        (fun p : Fin 25 × Fin 50 => StuKon.DataDriven.error m o p.1 p.2)
        (Finset.mem_univ (i, k))
    · unfold StuKon.torch_max
      obtain ⟨p, _, hp⟩ := Finset.exists_mem_eq_sup'
        (Finset.univ_nonempty (α := Fin 25 × Fin 50))
        (fun p : Fin 25 × Fin 50 => StuKon.DataDriven.error m o p.1 p.2)
      exact ⟨p.1, p.2, hp⟩
  · unfold StuKon.DataDriven.relative_error
      StuKon.DataDriven.pointwise_relative_error
    rw [StuKon.max_abs_error_m0_o0, StuKon.max_target_o0,
      StuKon.max_pointwise_rel_m0_o0]
    norm_num
